import Mathlib

/-!
Shallow embedding of the SkiPay multiplayer skiing game core
(deterministic PRNG, procedural world generator, physics engine,
match tick loop, snapshot protocol, client reconciliation),
with theorems checking the natural-language specification.

JavaScript numbers are modelled exactly: the PRNG state and all bitwise
coercions live in `Nat` (bit patterns below `2 ^ 32`), generator outputs
and world coordinates are exact rationals (every value produced by the
generator is a dyadic rational representable in an IEEE double for the
ranges used here), and the transcendental physics pipeline
(`sqrt`, `atan2`, `cos`, `sin`) is idealised over the reals.
-/

namespace Skipay

/-! ## Deterministic PRNG (`src/apps/server/src/lib/prng.ts`) -/

/-- `2 ^ 32`, the modulus of every JavaScript 32-bit bitwise coercion. -/
def U32 : ℕ := 2 ^ 32

/-- The mulberry32 additive constant `0x6d2b79f5`. -/
def MULBERRY_INC : ℕ := 0x6d2b79f5

/-- The mulberry32 output mixer: the body of `PRNG.next` after the state
increment.  The bitwise operators mirror JavaScript `Math.imul`, `^`, `|`
and `>>>` acting on the 32-bit bit pattern of the state. -/
def mulberryMix (state : ℕ) : ℕ :=
  let t0 := state % U32
  let t1 := ((t0 ^^^ (t0 >>> 15)) * (t0 ||| 1)) % U32
  let m := ((t1 ^^^ (t1 >>> 7)) * (t1 ||| 61)) % U32
  let t2 := t1 ^^^ ((t1 + m) % U32)
  t2 ^^^ (t2 >>> 14)

/-- The PRNG's single mutable state word.  JavaScript `this.state` is a
float that grows by `0x6d2b79f5` per call and is only coerced to 32 bits
inside the mixer, so we keep the un-truncated `Nat` here. -/
structure PRNG where
  state : ℕ
deriving DecidableEq, Repr

/-- `new PRNG(seed)`: `this.state = seed >>> 0`. -/
def PRNG.init (seed : ℕ) : PRNG := ⟨seed % U32⟩

/-- `PRNG.next()`: advance the state by the mulberry32 increment and mix;
returns a rational in `[0, 1)` (the JavaScript division by `4294967296`
is exact). -/
def PRNG.next (r : PRNG) : ℚ × PRNG :=
  let s := r.state + MULBERRY_INC
  ((mulberryMix s : ℚ) / 4294967296, ⟨s⟩)

/-- `PRNG.nextInt(min, max)`: `Math.floor(this.next() * (max - min + 1)) + min`. -/
def PRNG.nextInt (r : PRNG) (lo hi : ℤ) : ℤ × PRNG :=
  let n := r.next
  (Int.floor (n.1 * ((hi : ℚ) - (lo : ℚ) + 1)) + lo, n.2)

/-- `PRNG.nextFloat(min, max)`: `this.next() * (max - min) + min`. -/
def PRNG.nextFloat (r : PRNG) (lo hi : ℚ) : ℚ × PRNG :=
  let n := r.next
  (n.1 * (hi - lo) + lo, n.2)

lemma shr_le (a k : ℕ) : a >>> k ≤ a := by
  rw [Nat.shiftRight_eq_div_pow]
  exact Nat.div_le_self _ _

lemma xor_shr_lt {a : ℕ} (k : ℕ) (h : a < U32) : a ^^^ (a >>> k) < U32 := by
  have h2 : U32 = 2 ^ 32 := rfl
  rw [h2] at h ⊢
  exact Nat.xor_lt_two_pow h (lt_of_le_of_lt (shr_le a k) h)

lemma mulberryMix_lt (state : ℕ) : mulberryMix state < U32 := by
  have h32 : (0:ℕ) < U32 := by decide
  have hx : U32 = 2 ^ 32 := rfl
  unfold mulberryMix
  exact xor_shr_lt 14 (by
    rw [hx]
    exact Nat.xor_lt_two_pow (hx ▸ Nat.mod_lt _ h32) (hx ▸ Nat.mod_lt _ h32))

lemma PRNG.next_nonneg (r : PRNG) : 0 ≤ r.next.1 := by
  unfold PRNG.next
  positivity

lemma PRNG.next_lt_one (r : PRNG) : r.next.1 < 1 := by
  unfold PRNG.next
  rw [div_lt_one (by norm_num)]
  exact_mod_cast mulberryMix_lt (r.state + MULBERRY_INC)

/-! ## Map generator (`src/apps/server/src/physics/map-generator.ts`) -/

/-- JavaScript `ToInt32`: reduce an integer to the signed 32-bit range. -/
def toInt32 (n : ℤ) : ℤ := (n + 2 ^ 31) % 2 ^ 32 - 2 ^ 31

/-- One step of `MapGenerator.hashChunk`'s loop:
`hash = (hash << 5) - hash + str.charCodeAt(i); hash = hash & hash`. -/
def hashStep (h : ℤ) (c : Char) : ℤ :=
  toInt32 (toInt32 (h * 32) - h + (c.toNat : ℤ))

/-- The chunk-key string `` `${x},${y}` `` (also used for the generated-chunks set). -/
def chunkKey (x y : ℤ) : String := toString x ++ "," ++ toString y

/-- `MapGenerator.hashChunk(x, y)`: hash the string `"x,y"` character by
character, then `Math.abs`.  Note that the match seed is NOT an input. -/
def hashChunk (x y : ℤ) : ℕ :=
  ((chunkKey x y).toList.foldl hashStep 0).natAbs

/-- Object kinds (`ObstacleType` and `PickupType` string enums). -/
inductive ObjType
  | tree
  | rock
  | stump
  | snowman
  | jump
  | ice
  | speedBoost
  | invulnerable
  | scoreMultiplier
deriving DecidableEq, Repr

/-- The string value of each enum member. -/
def ObjType.str : ObjType → String
  | .tree => "tree"
  | .rock => "rock"
  | .stump => "stump"
  | .snowman => "snowman"
  | .jump => "jump"
  | .ice => "ice"
  | .speedBoost => "speed_boost"
  | .invulnerable => "invulnerable"
  | .scoreMultiplier => "score_multiplier"

/-- 2D vector with exact rational coordinates (world-generator side). -/
structure Vec2Q where
  x : ℚ
  y : ℚ
deriving DecidableEq, Repr

/-- `WorldObject` (`src/apps/server/src/physics/types.ts`). -/
structure WorldObject where
  id : String
  type : ObjType
  pos : Vec2Q
  radius : ℚ
  active : Bool
deriving DecidableEq, Repr

/-- `MapGenerator.createObject`: the id is
`` `${type}-${Math.floor(x)}-${Math.floor(y)}` ``. -/
def createObject (t : ObjType) (x y radius : ℚ) : WorldObject :=
  { id := t.str ++ "-" ++ toString (Int.floor x) ++ "-" ++ toString (Int.floor y)
    type := t
    pos := ⟨x, y⟩
    radius := radius
    active := true }

/-- JavaScript `Map.set`: replace in place if the key is present,
otherwise append (insertion order preserved). -/
def mapSet (m : List (String × WorldObject)) (k : String) (v : WorldObject) :
    List (String × WorldObject) :=
  if m.any (fun p => p.1 = k) then
    m.map (fun p => if p.1 = k then (k, v) else p)
  else
    m ++ [(k, v)]

/-- JavaScript `Map.values()` as a list. -/
def mapValues (m : List (String × WorldObject)) : List WorldObject :=
  m.map Prod.snd

/-- `GAME_CONSTANTS.CHUNK_SIZE` (rational copy for the generator). -/
def CHUNK_SIZEQ : ℚ := 1024

/-- `MAP_CONFIG.TREE_DENSITY`. -/
def TREE_DENSITY : ℚ := 15 / 1000

/-- `MAP_CONFIG.ROCK_DENSITY`. -/
def ROCK_DENSITY : ℚ := 8 / 1000

/-- `MAP_CONFIG.JUMP_DENSITY`. -/
def JUMP_DENSITY : ℚ := 3 / 1000

/-- `MAP_CONFIG.PICKUP_DENSITY`. -/
def PICKUP_DENSITY : ℚ := 5 / 1000

/-- `MAP_CONFIG.PATH_WIDTH` (rational copy). -/
def PATH_WIDTHQ : ℚ := 200

/-- `Math.floor(chunkSize * chunkSize * MAP_CONFIG.TREE_DENSITY)`. -/
def NUM_TREES : ℕ := (Int.floor (CHUNK_SIZEQ * CHUNK_SIZEQ * TREE_DENSITY)).toNat

/-- `Math.floor(chunkSize * chunkSize * MAP_CONFIG.ROCK_DENSITY)`. -/
def NUM_ROCKS : ℕ := (Int.floor (CHUNK_SIZEQ * CHUNK_SIZEQ * ROCK_DENSITY)).toNat

/-- `Math.floor(chunkSize * chunkSize * MAP_CONFIG.ROCK_DENSITY * 0.5)`. -/
def NUM_STUMPS : ℕ := (Int.floor (CHUNK_SIZEQ * CHUNK_SIZEQ * ROCK_DENSITY * (5 / 10))).toNat

/-- `Math.floor(chunkSize * chunkSize * MAP_CONFIG.JUMP_DENSITY)`. -/
def NUM_JUMPS : ℕ := (Int.floor (CHUNK_SIZEQ * CHUNK_SIZEQ * JUMP_DENSITY)).toNat

/-- `Math.floor(chunkSize * chunkSize * MAP_CONFIG.PICKUP_DENSITY)`. -/
def NUM_PICKUPS : ℕ := (Int.floor (CHUNK_SIZEQ * CHUNK_SIZEQ * PICKUP_DENSITY)).toNat

/-- One `generateChunk` loop for a fixed obstacle kind: each iteration
draws an x offset then a y offset from the chunk RNG and pushes
`createObject(kind, baseX + dx, baseY + dy, radius)`. -/
def genSimple (t : ObjType) (radius baseX baseY : ℚ) (r : PRNG) :
    ℕ → List WorldObject × PRNG
  | 0 => ([], r)
  | Nat.succ n =>
    let nx := r.nextFloat 0 CHUNK_SIZEQ
    let ny := nx.2.nextFloat 0 CHUNK_SIZEQ
    let obj := createObject t (baseX + nx.1) (baseY + ny.1) radius
    let rest := genSimple t radius baseX baseY ny.2 n
    (obj :: rest.1, rest.2)

/-- `pickupTypes` array from the pickup loop. -/
def pickupTypesArr : List ObjType := [.speedBoost, .invulnerable, .scoreMultiplier]

/-- The `generateChunk` pickups loop: each iteration draws a type index
via `nextInt(0, pickupTypes.length - 1)` and then the two offsets. -/
def genPickups (baseX baseY : ℚ) (r : PRNG) : ℕ → List WorldObject × PRNG
  | 0 => ([], r)
  | Nat.succ n =>
    let ni := r.nextInt 0 ((pickupTypesArr.length : ℤ) - 1)
    let t := pickupTypesArr.getD ni.1.toNat .speedBoost
    let nx := ni.2.nextFloat 0 CHUNK_SIZEQ
    let ny := nx.2.nextFloat 0 CHUNK_SIZEQ
    let obj := createObject t (baseX + nx.1) (baseY + ny.1) 10
    let rest := genPickups baseX baseY ny.2 n
    (obj :: rest.1, rest.2)

/-- `MapGenerator` state: the match-seeded `prng` (which, notably,
`generateChunk` never reads), the generated-chunk key set, and the
id-keyed object store. -/
structure MapGenerator where
  prng : PRNG
  generatedChunks : List String
  objects : List (String × WorldObject)

/-- `new MapGenerator(seed)`. -/
def MapGenerator.init (seed : ℕ) : MapGenerator :=
  { prng := PRNG.init seed, generatedChunks := [], objects := [] }

/-- `MapGenerator.getObjectsInChunk`: filter the whole store to objects
whose position lies in the chunk's square. -/
def MapGenerator.getObjectsInChunk (g : MapGenerator) (chunkX chunkY : ℤ) :
    List WorldObject :=
  let baseX := (chunkX : ℚ) * CHUNK_SIZEQ
  let baseY := (chunkY : ℚ) * CHUNK_SIZEQ
  (mapValues g.objects).filter (fun o =>
    decide (baseX ≤ o.pos.x ∧ o.pos.x < baseX + CHUNK_SIZEQ ∧
            baseY ≤ o.pos.y ∧ o.pos.y < baseY + CHUNK_SIZEQ))

/-- The body of `MapGenerator.generateChunk` past the generated-set guard:
seed a fresh chunk RNG from `hashChunk`, run the five generation loops,
filter out objects inside the guaranteed path strip, and register the
survivors in the id-keyed store. -/
def MapGenerator.generateChunkBody (g : MapGenerator) (chunkX chunkY : ℤ) :
    List WorldObject × MapGenerator :=
  let key := chunkKey chunkX chunkY
  let g0 : MapGenerator := { g with generatedChunks := key :: g.generatedChunks }
  let baseX := (chunkX : ℚ) * CHUNK_SIZEQ
  let baseY := (chunkY : ℚ) * CHUNK_SIZEQ
  let chunkRng := PRNG.init (hashChunk chunkX chunkY)
  let trees := genSimple .tree 20 baseX baseY chunkRng NUM_TREES
  let rocks := genSimple .rock 15 baseX baseY trees.2 NUM_ROCKS
  let stumps := genSimple .stump 12 baseX baseY rocks.2 NUM_STUMPS
  let jumps := genSimple .jump 25 baseX baseY stumps.2 NUM_JUMPS
  let pickups := genPickups baseX baseY jumps.2 NUM_PICKUPS
  let chunkObjects := trees.1 ++ rocks.1 ++ stumps.1 ++ jumps.1 ++ pickups.1
  let centerX := baseX + CHUNK_SIZEQ / 2
  let filtered := chunkObjects.filter (fun o =>
    decide (PATH_WIDTHQ / 2 < |o.pos.x - centerX|))
  let objects := filtered.foldl (fun m o => mapSet m o.id o) g0.objects
  (filtered, { g0 with objects := objects })

/-- `MapGenerator.generateChunk`: idempotence guard via the
generated-chunks set, then the generation body. -/
def MapGenerator.generateChunk (g : MapGenerator) (chunkX chunkY : ℤ) :
    List WorldObject × MapGenerator :=
  if (chunkKey chunkX chunkY) ∈ g.generatedChunks then
    (g.getObjectsInChunk chunkX chunkY, g)
  else
    g.generateChunkBody chunkX chunkY

/-! ### Analysis helpers for the chunk generation loops -/

/-- The chunk RNG after `k` raw `next()` calls (the mulberry32 state
advances by exactly `MULBERRY_INC` per call). -/
def stepN (r : PRNG) (k : ℕ) : PRNG := ⟨r.state + k * MULBERRY_INC⟩

/-- The single object produced by one iteration of a fixed-kind
generation loop starting from RNG `r`. -/
def simpleObjAt (t : ObjType) (radius baseX baseY : ℚ) (r : PRNG) : WorldObject :=
  let nx := r.nextFloat 0 CHUNK_SIZEQ
  let ny := nx.2.nextFloat 0 CHUNK_SIZEQ
  createObject t (baseX + nx.1) (baseY + ny.1) radius

lemma stepN_zero (r : PRNG) : stepN r 0 = r := by
  cases r; simp [stepN]

lemma stepN_stepN (r : PRNG) (a b : ℕ) : stepN (stepN r a) b = stepN r (a + b) := by
  cases r; simp [stepN]; ring

lemma genSimple_snd (t : ObjType) (radius baseX baseY : ℚ) :
    ∀ (n : ℕ) (r : PRNG), (genSimple t radius baseX baseY r n).2 = stepN r (2 * n) := by
  intro n
  induction n with
  | zero => intro r; simp [genSimple, stepN_zero]
  | succ m ih =>
    intro r
    simp only [genSimple, PRNG.nextFloat, PRNG.next, ih]
    cases r
    simp [stepN]
    ring

lemma genSimple_get (t : ObjType) (radius baseX baseY : ℚ) :
    ∀ (n i : ℕ), i < n → ∀ (r : PRNG),
      ((genSimple t radius baseX baseY r n).1).get? i =
        some (simpleObjAt t radius baseX baseY (stepN r (2 * i))) := by
  intro n
  induction n with
  | zero => intro i h; omega
  | succ m ih =>
    intro i h r
    match i with
    | 0 =>
      simp only [genSimple, List.get?, stepN_zero]
      rfl
    | Nat.succ j =>
      have hj : j < m := by omega
      simp only [genSimple, List.get?]
      rw [ih j hj]
      have hrng : (((r.nextFloat 0 CHUNK_SIZEQ).2).nextFloat 0 CHUNK_SIZEQ).2 = stepN r 2 := by
        cases r
        simp [PRNG.nextFloat, PRNG.next, stepN]
        ring
      rw [hrng, stepN_stepN]
      have harith : 2 + 2 * j = 2 * (j + 1) := by ring
      rw [harith]

/-! ### Store (JavaScript `Map`) invariants -/

/-- Invariant of the id-keyed object store: keys are pairwise distinct
and every entry's key is its object's id. -/
def storeOk (m : List (String × WorldObject)) : Prop :=
  (m.map Prod.fst).Nodup ∧ ∀ p ∈ m, p.1 = p.2.id

lemma storeOk_nil : storeOk [] := by simp [storeOk]

lemma mapSet_fst (m : List (String × WorldObject)) (k : String) (v : WorldObject)
    (hmem : m.any (fun p => p.1 = k) = true) :
    (mapSet m k v).map Prod.fst = m.map Prod.fst := by
  simp only [mapSet, hmem, if_true, List.map_map]
  apply List.map_congr_left
  intro p _
  by_cases hp : p.1 = k
  · simp [hp]
  · simp [hp]

lemma storeOk_mapSet (m : List (String × WorldObject)) (v : WorldObject)
    (h : storeOk m) : storeOk (mapSet m v.id v) := by
  rcases h with ⟨hnd, hid⟩
  by_cases hmem : m.any (fun p => p.1 = v.id) = true
  · constructor
    · rw [mapSet_fst m v.id v hmem]; exact hnd
    · intro p hp
      simp only [mapSet, hmem, if_true, List.mem_map] at hp
      rcases hp with ⟨q, hq, hqe⟩
      by_cases hqk : q.1 = v.id
      · simp only [hqk, if_true] at hqe
        rw [← hqe]
      · simp only [hqk, if_false] at hqe
        rw [← hqe]; exact hid q hq
  · have hmem' : m.any (fun p => p.1 = v.id) = false := by
      revert hmem; cases m.any (fun p => p.1 = v.id) <;> simp
    constructor
    · simp only [mapSet, hmem', if_neg Bool.false_ne_true, List.map_append, List.map_cons]
      rw [List.nodup_append]
      refine ⟨hnd, by simp, ?_⟩
      intro a ha
      simp only [List.mem_map] at ha
      rcases ha with ⟨q, hq, hqe⟩
      simp only [List.map_cons, List.map_nil, List.mem_singleton]
      intro hav
      rw [hav] at hqe
      have : q.1 = v.id := hqe
      have : m.any (fun p => p.1 = v.id) = true := by
        rw [List.any_eq_true]
        exact ⟨q, hq, by simp [this]⟩
      rw [this] at hmem'
      cases hmem'
    · intro p hp
      simp only [mapSet, hmem', if_neg Bool.false_ne_true, List.mem_append,
        List.mem_singleton] at hp
      rcases hp with hp | hp
      · exact hid p hp
      · rw [hp]

lemma storeOk_foldl (l : List WorldObject) :
    ∀ (m : List (String × WorldObject)), storeOk m →
      storeOk (l.foldl (fun m o => mapSet m o.id o) m) := by
  induction l with
  | nil => intro m h; simpa using h
  | cons o rest ih =>
    intro m h
    exact ih _ (storeOk_mapSet m o h)

/-- In a store satisfying the invariant, two stored objects with the
same id are equal. -/
lemma storeOk_id_inj {m : List (String × WorldObject)} (h : storeOk m)
    {o o' : WorldObject} (ho : o ∈ mapValues m) (ho' : o' ∈ mapValues m)
    (hid : o.id = o'.id) : o = o' := by
  rcases h with ⟨hnd, hkey⟩
  simp only [mapValues, List.mem_map] at ho ho'
  rcases ho with ⟨p, hp, hpe⟩
  rcases ho' with ⟨q, hq, hqe⟩
  have hpk : p.1 = o.id := by rw [← hpe]; exact hkey p hp
  have hqk : q.1 = o'.id := by rw [← hqe]; exact hkey q hq
  have hkeq : p.1 = q.1 := by rw [hpk, hqk, hid]
  -- distinct positions in a Nodup key list force p = q
  have hpq : p = q := by
    rcases List.getElem_of_mem hp with ⟨i, hi, hieq⟩
    rcases List.getElem_of_mem hq with ⟨j, hj, hjeq⟩
    have hi' : i < (m.map Prod.fst).length := by simpa using hi
    have hj' : j < (m.map Prod.fst).length := by simpa using hj
    have hgi : (m.map Prod.fst)[i] = p.1 := by simp [hieq]
    have hgj : (m.map Prod.fst)[j] = q.1 := by simp [hjeq]
    have hij : i = j := by
      rw [← @List.Nodup.getElem_inj_iff _ _ hnd i hi' j hj', hgi, hgj]
      exact hkeq
    subst hij
    rw [← hieq, ← hjeq]
  rw [← hpe, ← hqe, hpq]

/-! ### Concrete chunk-generation facts (seed 42, chunk (0,0)) -/

/-- Concrete match-seed generator used in the counterexample runs. -/
def mg42 : MapGenerator := MapGenerator.init 42

/-- First generated object colliding on id in chunk `(0, 0)` (tree index 337). -/
def treeA : WorldObject :=
  { id := "tree-811-384", type := .tree
    pos := ⟨3405413882 / 4194304, 1610850962 / 4194304⟩
    radius := 20, active := true }

/-- Second generated object with the same id (tree index 1515). -/
def treeB : WorldObject :=
  { id := "tree-811-384", type := .tree
    pos := ⟨3401943072 / 4194304, 1612946964 / 4194304⟩
    radius := 20, active := true }

lemma NUM_TREES_eq : NUM_TREES = 15728 := by
  unfold NUM_TREES CHUNK_SIZEQ TREE_DENSITY
  norm_num
  rfl

lemma hash00 : hashChunk 0 0 = 47540 := by decide

lemma init00 : PRNG.init (hashChunk 0 0) = ⟨47540⟩ := by
  rw [hash00]
  unfold PRNG.init U32
  norm_num

lemma treeA_eval :
    simpleObjAt .tree 20 (((0:ℤ):ℚ) * CHUNK_SIZEQ) (((0:ℤ):ℚ) * CHUNK_SIZEQ)
      (stepN (PRNG.init (hashChunk 0 0)) (2 * 337)) = treeA := by
  rw [init00]
  have hx : mulberryMix (47540 + 2 * 337 * MULBERRY_INC + MULBERRY_INC) = 3405413882 := by
    decide
  have hy : mulberryMix (47540 + 2 * 337 * MULBERRY_INC + MULBERRY_INC + MULBERRY_INC) =
      1610850962 := by decide
  simp only [simpleObjAt, PRNG.nextFloat, PRNG.next, stepN, hx, hy]
  unfold createObject treeA
  simp only [WorldObject.mk.injEq, Vec2Q.mk.injEq]
  have h1 : Int.floor (((0:ℤ):ℚ) * CHUNK_SIZEQ +
      ((3405413882:ℕ) / 4294967296 * (CHUNK_SIZEQ - 0) + 0)) = 811 := by
    norm_num [CHUNK_SIZEQ]
  have h2 : Int.floor (((0:ℤ):ℚ) * CHUNK_SIZEQ +
      ((1610850962:ℕ) / 4294967296 * (CHUNK_SIZEQ - 0) + 0)) = 384 := by
    norm_num [CHUNK_SIZEQ]
  rw [h1, h2]
  refine ⟨by decide, trivial,
    ⟨by norm_num [CHUNK_SIZEQ], by norm_num [CHUNK_SIZEQ]⟩, trivial, trivial⟩

lemma treeB_eval :
    simpleObjAt .tree 20 (((0:ℤ):ℚ) * CHUNK_SIZEQ) (((0:ℤ):ℚ) * CHUNK_SIZEQ)
      (stepN (PRNG.init (hashChunk 0 0)) (2 * 1515)) = treeB := by
  rw [init00]
  have hx : mulberryMix (47540 + 2 * 1515 * MULBERRY_INC + MULBERRY_INC) = 3401943072 := by
    decide
  have hy : mulberryMix (47540 + 2 * 1515 * MULBERRY_INC + MULBERRY_INC + MULBERRY_INC) =
      1612946964 := by decide
  simp only [simpleObjAt, PRNG.nextFloat, PRNG.next, stepN, hx, hy]
  unfold createObject treeB
  simp only [WorldObject.mk.injEq, Vec2Q.mk.injEq]
  have h1 : Int.floor (((0:ℤ):ℚ) * CHUNK_SIZEQ +
      ((3401943072:ℕ) / 4294967296 * (CHUNK_SIZEQ - 0) + 0)) = 811 := by
    norm_num [CHUNK_SIZEQ]
  have h2 : Int.floor (((0:ℤ):ℚ) * CHUNK_SIZEQ +
      ((1612946964:ℕ) / 4294967296 * (CHUNK_SIZEQ - 0) + 0)) = 384 := by
    norm_num [CHUNK_SIZEQ]
  rw [h1, h2]
  refine ⟨by decide, trivial,
    ⟨by norm_num [CHUNK_SIZEQ], by norm_num [CHUNK_SIZEQ]⟩, trivial, trivial⟩

lemma treeA_mem_gen :
    treeA ∈ (genSimple .tree 20 (((0:ℤ):ℚ) * CHUNK_SIZEQ) (((0:ℤ):ℚ) * CHUNK_SIZEQ)
      (PRNG.init (hashChunk 0 0)) NUM_TREES).1 := by
  have h := genSimple_get .tree 20 (((0:ℤ):ℚ) * CHUNK_SIZEQ) (((0:ℤ):ℚ) * CHUNK_SIZEQ)
    NUM_TREES 337 (by rw [NUM_TREES_eq]; norm_num) (PRNG.init (hashChunk 0 0))
  rw [treeA_eval] at h
  exact List.get?_mem h

lemma treeB_mem_gen :
    treeB ∈ (genSimple .tree 20 (((0:ℤ):ℚ) * CHUNK_SIZEQ) (((0:ℤ):ℚ) * CHUNK_SIZEQ)
      (PRNG.init (hashChunk 0 0)) NUM_TREES).1 := by
  have h := genSimple_get .tree 20 (((0:ℤ):ℚ) * CHUNK_SIZEQ) (((0:ℤ):ℚ) * CHUNK_SIZEQ)
    NUM_TREES 1515 (by rw [NUM_TREES_eq]; norm_num) (PRNG.init (hashChunk 0 0))
  rw [treeB_eval] at h
  exact List.get?_mem h

lemma treeA_ne_treeB : treeA ≠ treeB := by
  unfold treeA treeB
  intro h
  have := congrArg (fun o => o.pos.x) h
  norm_num at this

lemma chunkA_eq : mg42.generateChunk 0 0 = mg42.generateChunkBody 0 0 := by
  unfold mg42 MapGenerator.generateChunk MapGenerator.init
  simp

lemma treeA_mem_first : treeA ∈ (mg42.generateChunk 0 0).1 := by
  rw [chunkA_eq]
  unfold MapGenerator.generateChunkBody
  rw [List.mem_filter]
  constructor
  · apply List.mem_append_left
    apply List.mem_append_left
    apply List.mem_append_left
    apply List.mem_append_left
    exact treeA_mem_gen
  · unfold treeA
    rw [decide_eq_true_eq]
    norm_num [CHUNK_SIZEQ, PATH_WIDTHQ]
    rw [abs_of_nonneg (by norm_num)]
    norm_num

lemma treeB_mem_first : treeB ∈ (mg42.generateChunk 0 0).1 := by
  rw [chunkA_eq]
  unfold MapGenerator.generateChunkBody
  rw [List.mem_filter]
  constructor
  · apply List.mem_append_left
    apply List.mem_append_left
    apply List.mem_append_left
    apply List.mem_append_left
    exact treeB_mem_gen
  · unfold treeB
    rw [decide_eq_true_eq]
    norm_num [CHUNK_SIZEQ, PATH_WIDTHQ]
    rw [abs_of_nonneg (by norm_num)]
    norm_num

lemma m1_objects :
    (mg42.generateChunk 0 0).2.objects =
      ((mg42.generateChunk 0 0).1).foldl (fun m o => mapSet m o.id o) [] := by
  rw [chunkA_eq]
  rfl

lemma m1_storeOk : storeOk (mg42.generateChunk 0 0).2.objects := by
  rw [m1_objects]
  exact storeOk_foldl _ [] storeOk_nil

lemma m1_chunks : (mg42.generateChunk 0 0).2.generatedChunks = [chunkKey 0 0] := by
  rw [chunkA_eq]
  rfl

lemma chunkB_cached :
    (mg42.generateChunk 0 0).2.generateChunk 0 0 =
      ((mg42.generateChunk 0 0).2.getObjectsInChunk 0 0, (mg42.generateChunk 0 0).2) := by
  have hmem : chunkKey 0 0 ∈ (mg42.generateChunk 0 0).2.generatedChunks := by
    rw [m1_chunks]
    exact List.mem_singleton.2 rfl
  show (if chunkKey 0 0 ∈ (mg42.generateChunk 0 0).2.generatedChunks then
      ((mg42.generateChunk 0 0).2.getObjectsInChunk 0 0, (mg42.generateChunk 0 0).2)
    else (mg42.generateChunk 0 0).2.generateChunkBody 0 0) =
      ((mg42.generateChunk 0 0).2.getObjectsInChunk 0 0, (mg42.generateChunk 0 0).2)
  rw [if_pos hmem]

lemma second_call_mem_values {o : WorldObject}
    (h : o ∈ ((mg42.generateChunk 0 0).2.generateChunk 0 0).1) :
    o ∈ mapValues (mg42.generateChunk 0 0).2.objects := by
  rw [chunkB_cached] at h
  unfold MapGenerator.getObjectsInChunk at h
  exact (List.mem_filter.1 h).1

/-! ## Physics engine (`src/apps/server/src/physics/engine.ts`)

The trigonometric/irrational float pipeline is idealised over `ℝ`,
so this part of the embedding is noncomputable; concrete scenario
theorems evaluate it symbolically. -/

noncomputable section
open Classical

/-- `GAME_CONSTANTS.MAX_SPEED`. -/
def MAX_SPEED : ℝ := 500

/-- `GAME_CONSTANTS.MIN_SPEED`. -/
def MIN_SPEED : ℝ := 50

/-- `GAME_CONSTANTS.ACCELERATION`. -/
def ACCELERATION : ℝ := 100

/-- `GAME_CONSTANTS.BRAKE_DECELERATION`. -/
def BRAKE_DECELERATION : ℝ := 300

/-- `GAME_CONSTANTS.TUCK_ACCELERATION_BONUS`. -/
def TUCK_ACCELERATION_BONUS : ℝ := 50

/-- `GAME_CONSTANTS.FRICTION`. -/
def FRICTION : ℝ := 98 / 100

/-- `GAME_CONSTANTS.TURN_RATE` (degrees per second). -/
def TURN_RATE : ℝ := 200

/-- `GAME_CONSTANTS.JUMP_VELOCITY`. -/
def JUMP_VELOCITY : ℝ := 150

/-- `GAME_CONSTANTS.GRAVITY`. -/
def GRAVITY : ℝ := 400

/-- `GAME_CONSTANTS.AIRBORNE_DURATION_MIN`. -/
def AIRBORNE_DURATION_MIN : ℝ := 3 / 10

/-- `GAME_CONSTANTS.AIRBORNE_DURATION_MAX`. -/
def AIRBORNE_DURATION_MAX : ℝ := 3 / 2

/-- `GAME_CONSTANTS.PLAYER_RADIUS`. -/
def PLAYER_RADIUS : ℝ := 16

/-- `GAME_CONSTANTS.OBSTACLE_CHECK_RADIUS`. -/
def OBSTACLE_CHECK_RADIUS : ℝ := 100

/-- `GAME_CONSTANTS.DISTANCE_SCORE_MULTIPLIER`. -/
def DISTANCE_SCORE_MULTIPLIER : ℝ := 1

/-- `GAME_CONSTANTS.TRICK_SCORE_BASE`. -/
def TRICK_SCORE_BASE : ℝ := 100

/-- `GAME_CONSTANTS.OBSTACLE_HIT_PENALTY`. -/
def OBSTACLE_HIT_PENALTY : ℝ := -50

/-- `GAME_CONSTANTS.PICKUP_SCORE`. -/
def PICKUP_SCORE : ℝ := 50

/-- `GAME_CONSTANTS.CHUNK_SIZE` (real copy for radius queries). -/
def CHUNK_SIZE : ℝ := 1024

/-- JavaScript `Math.atan2(y, x)` (idealised; the `(0, 0)` and signed-zero
corner cases collapse to `0`, which no claim exercises). -/
def atan2 (y x : ℝ) : ℝ :=
  if 0 < x then Real.arctan (y / x)
  else if x < 0 then
    (if 0 ≤ y then Real.arctan (y / x) + Real.pi else Real.arctan (y / x) - Real.pi)
  else if 0 < y then Real.pi / 2
  else if y < 0 then -(Real.pi / 2)
  else 0

/-- `PlayerState` string enum. -/
inductive PlayerState
  | skiing
  | jumping
  | crashed
  | finished
deriving DecidableEq, Repr

/-- 2D vector over the reals (physics side). -/
structure Vec2 where
  x : ℝ
  y : ℝ

/-- `PlayerIntent`: all four fields are JavaScript numbers; `brake`,
`tuck` and `jump` are compared against the literal `1`. -/
structure PlayerIntent where
  steer : ℝ
  brake : ℝ
  tuck : ℝ
  jump : ℝ

/-- `PlayerPhysics` (`src/apps/server/src/physics/types.ts`); the
`effectExpiry` JavaScript `Map` is an insertion-ordered association list. -/
structure PlayerPhysics where
  id : String
  position : Vec2
  velocity : Vec2
  state : PlayerState
  distance : ℝ
  score : ℝ
  speed : ℝ
  airborneTime : ℝ
  effectExpiry : List (String × ℝ)
  lastJumpY : ℝ

/-- Domain events pushed by `updatePlayer` (shapes from the
`GameEventSchema` wire schema). -/
inductive GameEvent
  | trick (playerId : String) (score : ℝ)
  | pickupEvent (playerId : String) (pickupType : String)
  | collisionEvent (playerId : String) (objectId : String)

/-- JavaScript `Map.get` on the effect-expiry map. -/
def effGet (l : List (String × ℝ)) (k : String) : Option ℝ :=
  (l.find? (fun p => p.1 = k)).map Prod.snd

/-- JavaScript `Map.set` on the effect-expiry map. -/
def effSet (l : List (String × ℝ)) (k : String) (v : ℝ) : List (String × ℝ) :=
  if l.any (fun p => p.1 = k) then
    l.map (fun p => if p.1 = k then (k, v) else p)
  else
    l ++ [(k, v)]

/-- `PhysicsEngine.isPickup`: string membership in the pickup list. -/
def isPickupStr (t : String) : Bool :=
  ["speed_boost", "invulnerable", "score_multiplier"].contains t

/-- `PhysicsEngine.checkCollisions`: first active object whose
centre-to-centre distance to the player is below the radius sum. -/
def checkCollisions (player : PlayerPhysics) : List WorldObject → Option WorldObject
  | [] => none
  | obj :: rest =>
    if obj.active = true then
      let dx := player.position.x - (obj.pos.x : ℝ)
      let dy := player.position.y - (obj.pos.y : ℝ)
      let dist := Real.sqrt (dx * dx + dy * dy)
      if dist < PLAYER_RADIUS + (obj.radius : ℝ) then some obj
      else checkCollisions player rest
    else checkCollisions player rest

/-- Result of one `updatePlayer` call: the mutated player, the events
list, and the nearby-objects list after any in-place pickup
deactivation (`obj.active = false` mutates the shared store object). -/
structure UpdateResult where
  player : PlayerPhysics
  events : List GameEvent
  objects : List WorldObject

/-- `PhysicsEngine.updatePlayer`, phase by phase in source order:
crash no-op, jump start, airborne/landing/trick, acceleration selection,
invulnerability lookup, speed clamp, steering (ground) or heading hold
(air), friction, integration, distance/score, collision handling. -/
def updatePlayer (player : PlayerPhysics) (intent : PlayerIntent) (dt : ℝ)
    (objects : List WorldObject) (serverTime : ℝ) : UpdateResult :=
  if player.state = PlayerState.crashed then
    ⟨player, [], objects⟩
  else
    let p1 :=
      if player.state = PlayerState.skiing ∧ intent.jump = 1 then
        { player with
          state := PlayerState.jumping
          velocity := ⟨player.velocity.x, player.velocity.y + JUMP_VELOCITY⟩
          airborneTime := 0
          lastJumpY := player.position.y }
      else player
    let step2 : PlayerPhysics × List GameEvent :=
      if p1.state = PlayerState.jumping then
        let at2 := p1.airborneTime + dt
        let vy2 := p1.velocity.y - GRAVITY * dt
        let pa := { p1 with airborneTime := at2, velocity := ⟨p1.velocity.x, vy2⟩ }
        if vy2 ≤ 0 ∧ AIRBORNE_DURATION_MIN ≤ at2 then
          let pb := { pa with state := PlayerState.skiing }
          if AIRBORNE_DURATION_MIN ≤ at2 ∧ at2 ≤ AIRBORNE_DURATION_MAX then
            let trickScore := (Int.floor (TRICK_SCORE_BASE * (at2 / AIRBORNE_DURATION_MAX)) : ℝ)
            ({ pb with score := pb.score + trickScore }, [GameEvent.trick pb.id trickScore])
          else (pb, [])
        else (pa, [])
      else (p1, [])
    let p2 := step2.1
    let events1 := step2.2
    let accel : ℝ :=
      if intent.brake = 1 then -BRAKE_DECELERATION
      else if intent.tuck = 1 then ACCELERATION + TUCK_ACCELERATION_BONUS
      else ACCELERATION
    let isInvulnerable : Prop :=
      match effGet p2.effectExpiry "invulnerable" with
      | some expiry => serverTime < expiry
      | none => False
    let forwardSpeed := Real.sqrt (p2.velocity.x ^ 2 + p2.velocity.y ^ 2)
    let newSpeed := max MIN_SPEED (min MAX_SPEED (forwardSpeed + accel * dt))
    let p3 :=
      if p2.state = PlayerState.skiing then
        let turnRate := TURN_RATE * dt * intent.steer
        let angle := atan2 p2.velocity.y p2.velocity.x
        let newAngle := angle + turnRate * Real.pi / 180
        { p2 with velocity := ⟨Real.cos newAngle * newSpeed, Real.sin newAngle * newSpeed⟩ }
      else
        let angle := atan2 p2.velocity.y p2.velocity.x
        { p2 with velocity := ⟨Real.cos angle * newSpeed, Real.sin angle * newSpeed⟩ }
    let p4 := { p3 with velocity := ⟨p3.velocity.x * FRICTION, p3.velocity.y * FRICTION⟩ }
    let p5 := { p4 with position :=
      ⟨p4.position.x + p4.velocity.x * dt, p4.position.y + p4.velocity.y * dt⟩ }
    let distanceGain := max 0 (p5.velocity.y * dt)
    let p6 := { p5 with
      distance := p5.distance + distanceGain
      score := p5.score + (Int.floor (distanceGain * DISTANCE_SCORE_MULTIPLIER) : ℝ) }
    let p7 := { p6 with speed := newSpeed }
    if p7.state = PlayerState.skiing ∧ ¬ isInvulnerable then
      match checkCollisions p7 objects with
      | some obj =>
        if isPickupStr obj.type.str = true then
          let objects2 := objects.map (fun o =>
            if o.id = obj.id then { o with active := false } else o)
          let pp := { p7 with
            score := p7.score + PICKUP_SCORE
            effectExpiry := effSet p7.effectExpiry obj.type.str (serverTime + 5000) }
          ⟨pp, events1 ++ [GameEvent.pickupEvent pp.id obj.type.str], objects2⟩
        else
          let pp := { p7 with
            state := PlayerState.crashed
            velocity := ⟨0, 0⟩
            score := p7.score + OBSTACLE_HIT_PENALTY }
          ⟨pp, events1 ++ [GameEvent.collisionEvent pp.id obj.id], objects⟩
      | none => ⟨p7, events1, objects⟩
    else ⟨p7, events1, objects⟩

/-- `PhysicsEngine.validatePlayerState` (anti-cheat guard). -/
def validatePlayerState (oldState newState : PlayerPhysics) (dt : ℝ) :
    Bool × Option String :=
  let speed := Real.sqrt (newState.velocity.x ^ 2 + newState.velocity.y ^ 2)
  if MAX_SPEED * (11 / 10) < speed then (false, some "speed_too_high")
  else
    let oldSpeed := Real.sqrt (oldState.velocity.x ^ 2 + oldState.velocity.y ^ 2)
    let accelMax := ACCELERATION + TUCK_ACCELERATION_BONUS
    let maxSpeedChange := accelMax * dt * 2
    if maxSpeedChange < |speed - oldSpeed| then (false, some "acceleration_too_high")
    else
      let dx := newState.position.x - oldState.position.x
      let dy := newState.position.y - oldState.position.y
      let maxDist := MAX_SPEED * dt * 2
      if maxDist < Real.sqrt (dx * dx + dy * dy) then (false, some "teleportation")
      else (true, none)

/-! ## Match and tick scheduler (`src/apps/server/src/match/match-manager.ts`) -/

/-- The list of integers `lo, lo+1, ..., hi` (a `for` loop range). -/
def intRange (lo hi : ℤ) : List ℤ :=
  (List.range (hi - lo + 1).toNat).map (fun i => lo + (i : ℤ))

/-- `MapGenerator.getObjectsNear`: lazily generate every chunk touched by
the query box, then filter the whole store by distance and activity.
The generator is threaded because generation mutates it. -/
def MapGenerator.getObjectsNear (g : MapGenerator) (x y radius : ℝ) :
    List WorldObject × MapGenerator :=
  let minChunkX := Int.floor ((x - radius) / CHUNK_SIZE)
  let maxChunkX := Int.floor ((x + radius) / CHUNK_SIZE)
  let minChunkY := Int.floor ((y - radius) / CHUNK_SIZE)
  let maxChunkY := Int.floor ((y + radius) / CHUNK_SIZE)
  let g2 := (intRange minChunkX maxChunkX).foldl (fun acc cx =>
    (intRange minChunkY maxChunkY).foldl (fun acc2 cy =>
      (acc2.generateChunk cx cy).2) acc) g
  let near := (mapValues g2.objects).filter (fun o =>
    decide (Real.sqrt (((o.pos.x : ℝ) - x) ^ 2 + ((o.pos.y : ℝ) - y) ^ 2) ≤ radius) &&
      o.active)
  (near, g2)

/-- `GAME_CONSTANTS.INPUT_BUFFER_SIZE`. -/
def INPUT_BUFFER_SIZE : ℕ := 60

/-- `GAME_CONSTANTS.SERVER_TICK_RATE`. -/
def SERVER_TICK_RATE : ℝ := 20

/-- `GAME_CONSTANTS.MAX_PLAYERS_PER_MATCH`. -/
def MAX_PLAYERS_PER_MATCH : ℕ := 8

/-- One queued input: `{seq, intent, timestamp}`. -/
structure InputEntry where
  seq : ℤ
  intent : PlayerIntent
  timestamp : ℝ

/-- `MatchPlayer` runtime record. -/
structure MatchPlayer where
  id : String
  userId : String
  displayName : String
  physics : PlayerPhysics
  lastAckedSeq : ℤ
  inputQueue : List InputEntry
  connected : Bool

/-- `MatchStatus` string enum. -/
inductive MatchStatus
  | lobby
  | active
  | complete
deriving DecidableEq, Repr

/-- The `Match` class state.  The `players` JavaScript `Map` is an
insertion-ordered list keyed by player id; `tickTimer` models whether
`tickInterval` is non-null (the loop is running). -/
structure GameMatch where
  id : String
  mode : String
  seed : ℕ
  status : MatchStatus
  tickRate : ℝ
  maxPlayers : ℕ
  players : List MatchPlayer
  currentTick : ℕ
  mapGen : MapGenerator
  tickTimer : Bool

/-- The fresh physics state installed by `Match.addPlayer`. -/
def initialPhysics (playerId : String) : PlayerPhysics :=
  { id := playerId
    position := ⟨0, 0⟩
    velocity := ⟨0, MIN_SPEED⟩
    state := PlayerState.skiing
    distance := 0
    score := 0
    speed := MIN_SPEED
    airborneTime := 0
    effectExpiry := []
    lastJumpY := 0 }

/-- `new Match(id, mode, seed, tickRate, maxPlayers)`. -/
def GameMatch.init (id mode : String) (seed : ℕ) (tickRate : ℝ) (maxPlayers : ℕ) :
    GameMatch :=
  { id := id, mode := mode, seed := seed
    status := MatchStatus.lobby
    tickRate := tickRate, maxPlayers := maxPlayers
    players := [], currentTick := 0
    mapGen := MapGenerator.init seed
    tickTimer := false }

/-- `Match.addPlayer`: reject on capacity or duplicate id, otherwise
append a fresh runtime record. -/
def GameMatch.addPlayer (m : GameMatch) (playerId userId displayName : String) :
    Bool × GameMatch :=
  if m.maxPlayers ≤ m.players.length then (false, m)
  else if m.players.any (fun p => p.id = playerId) then (false, m)
  else
    (true, { m with players := m.players ++
      [{ id := playerId, userId := userId, displayName := displayName
         physics := initialPhysics playerId
         lastAckedSeq := -1, inputQueue := [], connected := true }] })

/-- `Match.removePlayer`: mark disconnected, keep the slot. -/
def GameMatch.removePlayer (m : GameMatch) (playerId : String) : GameMatch :=
  { m with players := m.players.map (fun p =>
      if p.id = playerId then { p with connected := false } else p) }

/-- `Match.queueInput`: append to the player's queue, dropping the oldest
entry when the bound is exceeded.  No-op for unknown players. -/
def GameMatch.queueInput (m : GameMatch) (playerId : String) (seq : ℤ)
    (intent : PlayerIntent) (timestamp : ℝ) : GameMatch :=
  { m with players := m.players.map (fun p =>
      if p.id = playerId then
        let q := p.inputQueue ++ [{ seq := seq, intent := intent, timestamp := timestamp }]
        { p with inputQueue := if INPUT_BUFFER_SIZE < q.length then q.drop 1 else q }
      else p) }

/-- `Match.start`: LOBBY only; go ACTIVE, reset the tick counter, arm
the tick timer. -/
def GameMatch.start (m : GameMatch) : GameMatch :=
  if m.status ≠ MatchStatus.lobby then m
  else { m with status := MatchStatus.active, currentTick := 0, tickTimer := true }

/-- Final placement record handed to persistence by `Match.end`. -/
structure FinalResult where
  playerId : String
  userId : String
  displayName : String
  placement : ℕ
  score : ℝ
  distance : ℝ

/-- `Match.end` (`endMatch` here: `end` is reserved): idempotent; set
COMPLETE, stop the tick timer, compute placements by descending score. -/
def GameMatch.endMatch (m : GameMatch) : GameMatch × List FinalResult :=
  if m.status = MatchStatus.complete then (m, [])
  else
    let m2 := { m with status := MatchStatus.complete, tickTimer := false }
    let sorted := m.players.mergeSort (fun a b => decide (b.physics.score ≤ a.physics.score))
    let results := sorted.enum.map (fun pr =>
      { playerId := pr.2.id, userId := pr.2.userId, displayName := pr.2.displayName
        placement := pr.1 + 1, score := pr.2.physics.score
        distance := pr.2.physics.distance })
    (m2, results)

/-- The per-player body of `Match.tick`'s loop: select the latest queued
intent (append order), acknowledge its sequence, drop strictly older
entries, query nearby objects, run the physics engine, and write any
object mutations back to the store. -/
def tickPlayerStep (dt serverTime : ℝ)
    (acc : List MatchPlayer × MapGenerator × List GameEvent) (player : MatchPlayer) :
    List MatchPlayer × MapGenerator × List GameEvent :=
  if player.connected = true then
    let sel : PlayerIntent × ℤ × List InputEntry :=
      match player.inputQueue.getLast? with
      | some latest =>
        (latest.intent, latest.seq,
          player.inputQueue.filter (fun inp => decide (latest.seq ≤ inp.seq)))
      | none =>
        ({ steer := 0, brake := 0, tuck := 0, jump := 0 },
          player.lastAckedSeq, player.inputQueue)
    let near := acc.2.1.getObjectsNear player.physics.position.x
      player.physics.position.y OBSTACLE_CHECK_RADIUS
    let res := updatePlayer player.physics sel.1 dt near.1 serverTime
    let gen2 := res.objects.foldl
      (fun g o => { g with objects := mapSet g.objects o.id o }) near.2
    (acc.1 ++ [{ player with
        physics := res.player, lastAckedSeq := sel.2.1, inputQueue := sel.2.2 }],
      gen2, acc.2.2 ++ res.events)
  else
    (acc.1 ++ [player], acc.2.1, acc.2.2)

/-- `Match.tick`: advance every connected player, then end the match when
no connected player remains outside the CRASHED state and at least one
player ever joined.  The aggregated events are returned to the caller
(in the source they are collected into a local `allEvents` array). -/
def GameMatch.tick (m : GameMatch) (serverTime : ℝ) : GameMatch × List GameEvent :=
  let dt : ℝ := 1 / m.tickRate
  let folded := m.players.foldl (tickPlayerStep dt serverTime) ([], m.mapGen, [])
  let newPlayers := folded.1
  let m2 := { m with currentTick := m.currentTick + 1
                     players := newPlayers
                     mapGen := folded.2.1 }
  let activePlayers := newPlayers.filter (fun p =>
    p.connected && decide (p.physics.state ≠ PlayerState.crashed))
  if activePlayers.length = 0 ∧ 0 < newPlayers.length then
    ((m2.endMatch).1, folded.2.2)
  else
    (m2, folded.2.2)

end

/-! ## Snapshot protocol (`src/unnamed/part_009`, schema `src/unnamed/part_001`)
and client reconciliation (`src/apps/client/src/game/GameEngine.ts`) -/

/-- Per-player projection returned by `Match.getState()`. -/
structure PlayerView where
  id : String
  displayName : String
  x : ℝ
  y : ℝ
  vx : ℝ
  vy : ℝ
  state : PlayerState
  distance : ℝ
  score : ℝ

/-- The whole `Match.getState()` projection. -/
structure MatchStateView where
  tick : ℕ
  serverTime : ℝ
  players : List PlayerView

/-- `Match.getState()`; `Date.now()` is passed in as `serverTime`. -/
def GameMatch.getState (m : GameMatch) (serverTime : ℝ) : MatchStateView :=
  { tick := m.currentTick
    serverTime := serverTime
    players := m.players.map (fun p =>
      { id := p.id, displayName := p.displayName
        x := p.physics.position.x, y := p.physics.position.y
        vx := p.physics.velocity.x, vy := p.physics.velocity.y
        state := p.physics.state
        distance := p.physics.distance, score := p.physics.score }) }

/-- `PlayerSnapshotSchema` entry (`isYou` is optional on the wire). -/
structure SnapshotPlayer where
  id : String
  displayName : String
  x : ℝ
  y : ℝ
  vx : ℝ
  vy : ℝ
  state : PlayerState
  distance : ℝ
  score : ℝ
  isYou : Option Bool

/-- `GameObjectSchema` entry of `objectsDelta`. -/
structure GameObjectDelta where
  id : String
  type : ObjType
  x : ℝ
  y : ℝ
  removed : Option Bool

/-- The `you` object of a snapshot. -/
structure AckInfo where
  ackSeq : ℤ

/-- `ServerSnapshotSchema`: `objectsDelta` and `events` are optional wire
fields (absent when the serialized object literal has no such key). -/
structure ServerSnapshot where
  tick : ℕ
  serverTime : ℝ
  players : List SnapshotPlayer
  objectsDelta : Option (List GameObjectDelta)
  you : AckInfo
  events : Option (List GameEvent)

/-- The snapshot object built for one connection per broadcast iteration
in `startBroadcastLoop`: the object literal carries `type`, `tick`,
`serverTime`, `players` (annotated with `isYou`) and `you` — no
`objectsDelta` and no `events` key. -/
def buildSnapshot (state : MatchStateView) (connPlayerId : String)
    (player : MatchPlayer) : ServerSnapshot :=
  { tick := state.tick
    serverTime := state.serverTime
    players := state.players.map (fun p =>
      { id := p.id, displayName := p.displayName
        x := p.x, y := p.y, vx := p.vx, vy := p.vy
        state := p.state, distance := p.distance, score := p.score
        isYou := some (p.id == connPlayerId) })
    objectsDelta := none
    you := ⟨player.lastAckedSeq⟩
    events := none }

/-- One entry of the client's predicted-input buffer
(`GameEngine.predictedStates`). -/
structure PredictedState where
  tick : ℕ
  seq : ℤ
  player : SnapshotPlayer

/-- The reconciliation slice of `GameEngine.handleSnapshot`: when a local
player id is set, the authoritative snapshot lists that player, and the
snapshot carries `you`, keep exactly the predictions with
`seq > ackSeq`; otherwise leave the buffer untouched. -/
def reconcile (myPlayerId : Option String) (players : List SnapshotPlayer)
    (snapYou : Option AckInfo) (predictedStates : List PredictedState) :
    List PredictedState :=
  match myPlayerId with
  | none => predictedStates
  | some pid =>
    match players.find? (fun p => p.id == pid), snapYou with
    | some _, some you =>
      predictedStates.filter (fun s => decide (you.ackSeq < s.seq))
    | _, _ => predictedStates

/-! ## Shared lemmas for the claim theorems -/

noncomputable section
open Classical

lemma atan2_zero_pos (y : ℝ) (hy : 0 < y) : atan2 y 0 = Real.pi / 2 := by
  unfold atan2
  rw [if_neg (lt_irrefl 0), if_neg (lt_irrefl 0), if_pos hy]

lemma updatePlayer_of_crashed (p : PlayerPhysics) (i : PlayerIntent) (dt : ℝ)
    (objs : List WorldObject) (t : ℝ) (h : p.state = PlayerState.crashed) :
    updatePlayer p i dt objs t = ⟨p, [], objs⟩ := by
  unfold updatePlayer
  rw [if_pos h]

lemma updatePlayer_state_of_finished (p : PlayerPhysics) (i : PlayerIntent) (dt : ℝ)
    (objs : List WorldObject) (t : ℝ) (h : p.state = PlayerState.finished) :
    (updatePlayer p i dt objs t).player.state = PlayerState.finished := by
  unfold updatePlayer
  simp [h]

lemma endMatch_players (m : GameMatch) : (m.endMatch).1.players = m.players := by
  unfold GameMatch.endMatch
  split
  · rfl
  · rfl

/-- Full symbolic evaluation of the spec's reference tick scenario:
fresh player, zero intent, `dt = 0.05`, no nearby objects. -/
lemma scenario_eval : updatePlayer (initialPhysics "s") ⟨0, 0, 0, 0⟩ (0.05 : ℝ) [] 0 =
    ⟨{ id := "s", position := ⟨0, 539/200⟩, velocity := ⟨0, 539/10⟩,
       state := PlayerState.skiing, distance := 539/200, score := 2, speed := 55,
       airborneTime := 0, effectExpiry := [], lastJumpY := 0 }, [], []⟩ := by
  unfold updatePlayer initialPhysics
  rw [if_neg (by simp : ¬ (PlayerState.skiing = PlayerState.crashed))]
  rw [if_neg (by norm_num : ¬ (PlayerState.skiing = PlayerState.skiing ∧ (0:ℝ) = 1))]
  have hatan : atan2 MIN_SPEED 0 = Real.pi / 2 :=
    atan2_zero_pos MIN_SPEED (by norm_num [MIN_SPEED])
  have hsqrt : Real.sqrt ((0:ℝ) ^ 2 + MIN_SPEED ^ 2) = MIN_SPEED := by
    rw [zero_pow (by norm_num), zero_add, Real.sqrt_sq (by norm_num [MIN_SPEED])]
  simp only [if_neg (by simp : ¬ (PlayerState.skiing = PlayerState.jumping)),
    if_neg (by norm_num : ¬ ((0:ℝ) = 1)), hsqrt, hatan, effGet, List.find?,
    eq_self_iff_true, if_true, true_and, and_true, not_false_iff, checkCollisions,
    mul_zero, zero_mul, zero_div, add_zero, Real.cos_pi_div_two, Real.sin_pi_div_two,
    one_mul, Option.map_none, not_false_iff, if_true]
  have hns : (MIN_SPEED ⊔ MAX_SPEED ⊓ (MIN_SPEED + ACCELERATION * (5e-2:ℝ))) = 55 := by
    rw [min_def, max_def]
    norm_num [MIN_SPEED, MAX_SPEED, ACCELERATION]
  simp only [hns, UpdateResult.mk.injEq, PlayerPhysics.mk.injEq, Vec2.mk.injEq]
  norm_num [FRICTION, DISTANCE_SCORE_MULTIPLIER, max_def]

lemma checkCollisions_singleton (p : PlayerPhysics) (o : WorldObject) (h : o.active = true) :
    checkCollisions p [o] =
      (if Real.sqrt ((p.position.x - (o.pos.x:ℝ)) ^ 2 + (p.position.y - (o.pos.y:ℝ)) ^ 2) <
          PLAYER_RADIUS + (o.radius:ℝ) then some o else none) := by
  unfold checkCollisions
  rw [if_pos h]
  show (if Real.sqrt ((p.position.x - (o.pos.x:ℝ)) * (p.position.x - (o.pos.x:ℝ)) +
      (p.position.y - (o.pos.y:ℝ)) * (p.position.y - (o.pos.y:ℝ))) <
      PLAYER_RADIUS + (o.radius:ℝ) then some o else checkCollisions p []) = _
  rw [show (p.position.x - (o.pos.x:ℝ)) * (p.position.x - (o.pos.x:ℝ)) +
      (p.position.y - (o.pos.y:ℝ)) * (p.position.y - (o.pos.y:ℝ)) =
      (p.position.x - (o.pos.x:ℝ)) ^ 2 + (p.position.y - (o.pos.y:ℝ)) ^ 2 from by ring]
  simp [checkCollisions]

/-! ### Concrete scenario data -/

/-- Player already in the terminal CRASHED state. -/
def crashedP : PlayerPhysics := { initialPhysics "c" with state := PlayerState.crashed }

/-- Runtime record for a connected player in the FINISHED state. -/
def finishedPlayer : MatchPlayer :=
  { id := "f", userId := "u", displayName := "F"
    physics := { initialPhysics "f" with state := PlayerState.finished }
    lastAckedSeq := -1, inputQueue := [], connected := true }

/-- Active match whose only connected player is FINISHED. -/
def mFinished : GameMatch :=
  { id := "m", mode := "race", seed := 42, status := MatchStatus.active
    tickRate := SERVER_TICK_RATE, maxPlayers := 8
    players := [finishedPlayer], currentTick := 0
    mapGen := MapGenerator.init 42, tickTimer := true }

/-- Runtime record for a connected CRASHED player. -/
def crashedPlayerM : MatchPlayer :=
  { id := "c", userId := "u", displayName := "C"
    physics := crashedP, lastAckedSeq := -1, inputQueue := [], connected := true }

/-- Active match whose only connected player is CRASHED. -/
def mCrashed : GameMatch :=
  { id := "mc", mode := "race", seed := 42, status := MatchStatus.active
    tickRate := SERVER_TICK_RATE, maxPlayers := 8
    players := [crashedPlayerM], currentTick := 0
    mapGen := MapGenerator.init 42, tickTimer := true }

/-- Obstacle 30 units straight ahead of the origin. -/
def obstacleC7 : WorldObject :=
  { id := "rock-30-0", type := .rock, pos := ⟨30, 0⟩, radius := 15, active := true }

/-- Input with the older sequence number 3 queued after 5 was acked. -/
def entryB : InputEntry := { seq := 3, intent := ⟨0, 0, 0, 0⟩, timestamp := 1 }

/-- Player whose last acked sequence (5) exceeds the queued input's (3). -/
def oooPlayer : MatchPlayer :=
  { id := "o", userId := "u", displayName := "O"
    physics := initialPhysics "o", lastAckedSeq := 5
    inputQueue := [entryB], connected := true }

/-- Match containing only `oooPlayer` (out-of-order input scenario). -/
def mOoo : GameMatch :=
  { id := "mo", mode := "race", seed := 42, status := MatchStatus.active
    tickRate := SERVER_TICK_RATE, maxPlayers := 8
    players := [oooPlayer], currentTick := 0
    mapGen := MapGenerator.init 42, tickTimer := true }

end

/-- Snapshot entry for the reconciliation witness. -/
def spWitness : SnapshotPlayer :=
  { id := "me", displayName := "Me", x := 0, y := 0, vx := 0, vy := 0
    state := PlayerState.skiing, distance := 0, score := 0, isYou := some true }

/-- Predicted-input buffer with sequences 1, 2, 3. -/
def bufWitness : List PredictedState :=
  [⟨1, 1, spWitness⟩, ⟨2, 2, spWitness⟩, ⟨3, 3, spWitness⟩]

/-! ## Claim theorems -/

/-- C1: the code violates the claim — `hashChunk` hashes only the chunk
coordinates and `generateChunk` never reads the match-seeded `prng`, so
two fresh `MapGenerator` instances with ANY two (hence also distinct)
match seeds return identical object lists for the same chunk.  There is
no pair of seeds with differing chunk content, refuting the claimed
seed dependence of generated objects. -/
theorem C1_chunk_content_ignores_match_seed (s1 s2 : ℕ) (cx cy : ℤ) :
    ((MapGenerator.init s1).generateChunk cx cy).1 =
      ((MapGenerator.init s2).generateChunk cx cy).1 := by
  unfold MapGenerator.generateChunk MapGenerator.init MapGenerator.generateChunkBody
  simp

/-- C2 counterexample: an ACTIVE match whose single connected player is
in the terminal FINISHED state does NOT transition to COMPLETE on tick
(the end-check tests only for CRASHED), and its tick timer keeps
running — refuting the claim that all-FINISHED also completes. -/
theorem C2_counterexample_finished_blocks_completion :
    finishedPlayer.connected = true ∧
    finishedPlayer.physics.state = PlayerState.finished ∧
    mFinished.status = MatchStatus.active ∧
    (mFinished.tick 0).1.status = MatchStatus.active ∧
    (mFinished.tick 0).1.tickTimer = true := by
  refine ⟨rfl, rfl, rfl, ?_, ?_⟩ <;>
    simp [GameMatch.tick, tickPlayerStep, mFinished, finishedPlayer, initialPhysics,
      updatePlayer_state_of_finished]

/-- C2 amended: after a tick of an ACTIVE match, the status is COMPLETE
exactly when at least one player joined and every connected player is
CRASHED (FINISHED does not count as terminal in the code's check), and
reaching COMPLETE stops the tick timer. -/
theorem C2_amended_tick_completion (m : GameMatch) (t : ℝ)
    (hact : m.status = MatchStatus.active) :
    ((m.tick t).1.status = MatchStatus.complete ↔
      (m.tick t).1.players ≠ [] ∧
        ∀ p ∈ (m.tick t).1.players, p.connected = true →
          p.physics.state = PlayerState.crashed) ∧
    ((m.tick t).1.status = MatchStatus.complete → (m.tick t).1.tickTimer = false) := by
  simp only [GameMatch.tick]
  split
  · next hcond =>
    simp only [GameMatch.endMatch]
    rw [if_neg (by rw [hact]; simp)]
    constructor
    · constructor
      · intro _
        refine ⟨List.length_pos.1 hcond.2, ?_⟩
        intro p hp hpc
        have hnil := List.length_eq_zero.1 hcond.1
        have hnp := List.filter_eq_nil_iff.1 hnil p hp
        simp only [Bool.and_eq_true, decide_eq_true_eq, not_and, hpc,
          true_implies] at hnp
        exact not_not.1 hnp
      · intro _
        rfl
    · intro _
      rfl
  · next hcond =>
    rw [not_and_or] at hcond
    constructor
    · constructor
      · intro habs
        rw [hact] at habs
        cases habs
      · intro hrhs
        exfalso
        rcases hcond with hlen | hpos
        · apply hlen
          rw [List.length_eq_zero]
          rw [List.filter_eq_nil_iff]
          intro p hp
          simp only [Bool.and_eq_true, decide_eq_true_eq, not_and]
          intro hpc
          simp [hrhs.2 p hp hpc]
        · exact hpos (List.length_pos.2 hrhs.1)
    · intro habs
      rw [hact] at habs
      cases habs

/-- C2 witness: a match whose only connected player is CRASHED does
complete on tick (the spec's own single-player scenario). -/
theorem C2_amended_tick_completion_witness :
    mCrashed.status = MatchStatus.active ∧
    (mCrashed.tick 0).1.status = MatchStatus.complete := by
  refine ⟨rfl, ?_⟩
  rw [(C2_amended_tick_completion mCrashed 0 rfl).1]
  constructor
  · simp [GameMatch.tick, tickPlayerStep, mCrashed, crashedPlayerM, crashedP,
      initialPhysics, updatePlayer_of_crashed, endMatch_players]
  · intro p hp _
    simp [GameMatch.tick, tickPlayerStep, mCrashed, crashedPlayerM, crashedP,
      initialPhysics, updatePlayer_of_crashed, GameMatch.endMatch] at hp
    simp [hp]

/-- C3: the code violates the claim — the snapshot object built per
connection by the broadcast loop never carries the tick events nor an
`objectsDelta`: both optional wire fields are absent from the object
literal, for every match state, connection and player (the tick loop's
aggregated `allEvents` are discarded). -/
theorem C3_snapshots_carry_no_events (state : MatchStateView) (connId : String)
    (player : MatchPlayer) :
    (buildSnapshot state connId player).events = none ∧
    (buildSnapshot state connId player).objectsDelta = none :=
  ⟨rfl, rfl⟩

/-- C4 counterexample: in the reference scenario (fresh player, zero
intent, `dt = 0.05`, no objects) the post-tick `velocity.y` is NOT
`MIN_SPEED + ACCELERATION*dt = 55` — friction multiplies it to 53.9. -/
theorem C4_counterexample_friction_alters_velocity :
    (updatePlayer (initialPhysics "s") ⟨0, 0, 0, 0⟩ (0.05 : ℝ) [] 0).player.velocity.y ≠
      MIN_SPEED + ACCELERATION * (0.05 : ℝ) := by
  rw [scenario_eval]
  norm_num [MIN_SPEED, ACCELERATION]

/-- C4 amended: in the same scenario `velocity.y` equals
`(MIN_SPEED + ACCELERATION*dt) * FRICTION`, `position.y` grows by the
new `velocity.y × dt`, and the score grows by
`floor(distanceGain * DISTANCE_SCORE_MULTIPLIER)`. -/
theorem C4_amended_scenario :
    (updatePlayer (initialPhysics "s") ⟨0, 0, 0, 0⟩ (0.05 : ℝ) [] 0).player.velocity.y =
      (MIN_SPEED + ACCELERATION * (0.05 : ℝ)) * FRICTION ∧
    (updatePlayer (initialPhysics "s") ⟨0, 0, 0, 0⟩ (0.05 : ℝ) [] 0).player.position.y =
      (initialPhysics "s").position.y +
        (updatePlayer (initialPhysics "s") ⟨0, 0, 0, 0⟩ (0.05 : ℝ) [] 0).player.velocity.y *
          (0.05 : ℝ) ∧
    (updatePlayer (initialPhysics "s") ⟨0, 0, 0, 0⟩ (0.05 : ℝ) [] 0).player.score =
      (initialPhysics "s").score +
        (Int.floor
          (((updatePlayer (initialPhysics "s") ⟨0, 0, 0, 0⟩ (0.05 : ℝ) [] 0).player.velocity.y *
            (0.05 : ℝ)) * DISTANCE_SCORE_MULTIPLIER) : ℝ) := by
  rw [scenario_eval]
  refine ⟨?_, ?_, ?_⟩ <;>
    norm_num [MIN_SPEED, ACCELERATION, FRICTION, DISTANCE_SCORE_MULTIPLIER, initialPhysics]

/-- C5: the code violates idempotence — with seed 42 at chunk `(0, 0)`,
trees 337 and 1515 survive the path filter with the same derived id
`"tree-811-384"` but different positions; the first call returns both,
while the second call reads the id-keyed store, which can hold at most
one object per id, so the two calls return different object sets. -/
theorem C5_second_generateChunk_call_differs :
    ¬ (∀ o : WorldObject, o ∈ (mg42.generateChunk 0 0).1 ↔
        o ∈ ((mg42.generateChunk 0 0).2.generateChunk 0 0).1) := by
  intro hsame
  have hA2 := (hsame treeA).1 treeA_mem_first
  have hB2 := (hsame treeB).1 treeB_mem_first
  exact treeA_ne_treeB
    (storeOk_id_inj m1_storeOk (second_call_mem_values hA2) (second_call_mem_values hB2) rfl)

/-- C6: whenever the client has a player id, the snapshot lists that
player and carries `you`, processing the snapshot leaves the
predicted-input buffer holding exactly the previous entries with
`seq > ackSeq`. -/
theorem C6_reconcile_retains_exactly_unacked (pid : String)
    (players : List SnapshotPlayer) (you : AckInfo) (buf : List PredictedState)
    (hfound : (players.find? (fun p => p.id == pid)).isSome = true)
    (e : PredictedState) :
    e ∈ reconcile (some pid) players (some you) buf ↔ e ∈ buf ∧ you.ackSeq < e.seq := by
  simp only [reconcile]
  cases hf : players.find? (fun p => p.id == pid) with
  | none => rw [hf] at hfound; simp at hfound
  | some q => simp [List.mem_filter]

/-- C6 witness: with `ackSeq = 2` and buffered sequences 1, 2, 3, entry 3
is retained exactly because `3 > 2`. -/
theorem C6_reconcile_retains_exactly_unacked_witness :
    (([spWitness].find? (fun p => p.id == "me")).isSome = true) ∧
    ((⟨3, 3, spWitness⟩ : PredictedState) ∈
        reconcile (some "me") [spWitness] (some ⟨2⟩) bufWitness ↔
      (⟨3, 3, spWitness⟩ : PredictedState) ∈ bufWitness ∧ (2:ℤ) < 3) :=
  ⟨rfl, C6_reconcile_retains_exactly_unacked "me" [spWitness] ⟨2⟩ bufWitness rfl
    ⟨3, 3, spWitness⟩⟩

/-- C7: against an active object, the collision scan fires exactly when
the Euclidean centre distance is strictly below `PLAYER_RADIUS` plus the
object radius, and at exact equality no collision is detected. -/
theorem C7_collision_iff_distance_lt (p : PlayerPhysics) (o : WorldObject)
    (h : o.active = true) :
    (checkCollisions p [o] = some o ↔
      Real.sqrt ((p.position.x - (o.pos.x:ℝ)) ^ 2 + (p.position.y - (o.pos.y:ℝ)) ^ 2) <
        PLAYER_RADIUS + (o.radius:ℝ)) ∧
    (Real.sqrt ((p.position.x - (o.pos.x:ℝ)) ^ 2 + (p.position.y - (o.pos.y:ℝ)) ^ 2) =
        PLAYER_RADIUS + (o.radius:ℝ) → checkCollisions p [o] = none) := by
  rw [checkCollisions_singleton p o h]
  constructor
  · by_cases hlt : Real.sqrt ((p.position.x - (o.pos.x:ℝ)) ^ 2 +
        (p.position.y - (o.pos.y:ℝ)) ^ 2) < PLAYER_RADIUS + (o.radius:ℝ)
    · simp [hlt]
    · simp [hlt]
  · intro heq
    rw [if_neg]
    rw [heq]
    exact lt_irrefl _

/-- C7 witness: a player at the origin collides with an active radius-15
obstacle at `(30, 0)` since `30 < 16 + 15`. -/
theorem C7_collision_iff_distance_lt_witness :
    obstacleC7.active = true ∧
    checkCollisions (initialPhysics "w") [obstacleC7] = some obstacleC7 := by
  refine ⟨rfl, (C7_collision_iff_distance_lt (initialPhysics "w") obstacleC7 rfl).1.mpr ?_⟩
  show Real.sqrt (((initialPhysics "w").position.x - ((30:ℚ):ℝ)) ^ 2 +
      ((initialPhysics "w").position.y - ((0:ℚ):ℝ)) ^ 2) < PLAYER_RADIUS + ((15:ℚ):ℝ)
  have h1 : (((initialPhysics "w").position.x - ((30:ℚ):ℝ)) ^ 2 +
      ((initialPhysics "w").position.y - ((0:ℚ):ℝ)) ^ 2) = 30 ^ 2 := by
    norm_num [initialPhysics]
  rw [h1, Real.sqrt_sq (by norm_num : (0:ℝ) ≤ 30)]
  norm_num [PLAYER_RADIUS]

/-- C8: a CRASHED player is a fixed point of the per-tick update — for
every intent, delta-time, object list and server time, position,
velocity and score are unchanged and the state remains CRASHED. -/
theorem C8_crashed_tick_noop (p : PlayerPhysics) (intent : PlayerIntent) (dt : ℝ)
    (objects : List WorldObject) (serverTime : ℝ)
    (h : p.state = PlayerState.crashed) :
    (updatePlayer p intent dt objects serverTime).player.position = p.position ∧
    (updatePlayer p intent dt objects serverTime).player.velocity = p.velocity ∧
    (updatePlayer p intent dt objects serverTime).player.score = p.score ∧
    (updatePlayer p intent dt objects serverTime).player.state = PlayerState.crashed := by
  rw [updatePlayer_of_crashed p intent dt objects serverTime h]
  exact ⟨rfl, rfl, rfl, h⟩

/-- C8 witness: concrete CRASHED player at rest stays untouched through
one update with zero intent. -/
theorem C8_crashed_tick_noop_witness :
    crashedP.state = PlayerState.crashed ∧
    ((updatePlayer crashedP ⟨0, 0, 0, 0⟩ (0.05 : ℝ) [] 0).player.position =
        crashedP.position ∧
      (updatePlayer crashedP ⟨0, 0, 0, 0⟩ (0.05 : ℝ) [] 0).player.velocity =
        crashedP.velocity ∧
      (updatePlayer crashedP ⟨0, 0, 0, 0⟩ (0.05 : ℝ) [] 0).player.score = crashedP.score ∧
      (updatePlayer crashedP ⟨0, 0, 0, 0⟩ (0.05 : ℝ) [] 0).player.state =
        PlayerState.crashed) :=
  ⟨rfl, C8_crashed_tick_noop crashedP ⟨0, 0, 0, 0⟩ (0.05 : ℝ) [] 0 rfl⟩

/-- C9: for every PRNG state, `next()` yields a value in `[0, 1)` and,
whenever `min ≤ max`, `nextInt(min, max)` yields an integer in the
inclusive range `[min, max]`. -/
theorem C9_prng_output_ranges (r : PRNG) (lo hi : ℤ) (h : lo ≤ hi) :
    (0 ≤ r.next.1 ∧ r.next.1 < 1) ∧
    lo ≤ (r.nextInt lo hi).1 ∧ (r.nextInt lo hi).1 ≤ hi := by
  have hq0 := r.next_nonneg
  have hq1 := r.next_lt_one
  have hn : (0:ℚ) < (hi:ℚ) - (lo:ℚ) + 1 := by
    have hc : (lo:ℚ) ≤ (hi:ℚ) := by exact_mod_cast h
    linarith
  refine ⟨⟨hq0, hq1⟩, ?_, ?_⟩
  · show lo ≤ Int.floor (r.next.1 * ((hi:ℚ) - (lo:ℚ) + 1)) + lo
    have h0 : (0:ℤ) ≤ Int.floor (r.next.1 * ((hi:ℚ) - (lo:ℚ) + 1)) := by
      apply Int.le_floor.2
      push_cast
      exact mul_nonneg hq0 (le_of_lt hn)
    linarith
  · show Int.floor (r.next.1 * ((hi:ℚ) - (lo:ℚ) + 1)) + lo ≤ hi
    have hlt : Int.floor (r.next.1 * ((hi:ℚ) - (lo:ℚ) + 1)) < hi - lo + 1 := by
      apply Int.floor_lt.2
      push_cast
      calc r.next.1 * ((hi:ℚ) - (lo:ℚ) + 1)
          < 1 * ((hi:ℚ) - (lo:ℚ) + 1) := mul_lt_mul_of_pos_right hq1 hn
        _ = (hi:ℚ) - (lo:ℚ) + 1 := one_mul _
    linarith

/-- C9 witness: with the fresh seed-1 generator, `nextInt(3, 7)` lies in
`[3, 7]` and `next()` lies in `[0, 1)`. -/
theorem C9_prng_output_ranges_witness :
    (3:ℤ) ≤ 7 ∧
    ((0 ≤ (PRNG.init 1).next.1 ∧ (PRNG.init 1).next.1 < 1) ∧
      3 ≤ ((PRNG.init 1).nextInt 3 7).1 ∧ ((PRNG.init 1).nextInt 3 7).1 ≤ 7) :=
  ⟨by decide, C9_prng_output_ranges (PRNG.init 1) 3 7 (by decide)⟩

/-- C10: on a tick of a single-player match with a non-empty queue, the
applied intent and the new `lastAckedSeq` come from the most recently
APPENDED entry (`queue[length-1]`), not the maximum sequence number, and
the queue keeps exactly the entries with `seq ≥` that entry's sequence —
so an out-of-order older entry overrides and the acked sequence can
decrease below the previous `lastAckedSeq`. -/
theorem C10_latest_appended_input_applied (m : GameMatch) (t : ℝ)
    (player : MatchPlayer) (pre : List InputEntry) (e : InputEntry)
    (hp : m.players = [player]) (hc : player.connected = true)
    (hq : player.inputQueue = pre ++ [e]) :
    ∃ p2, (m.tick t).1.players = [p2] ∧
      p2.lastAckedSeq = e.seq ∧
      p2.physics = (updatePlayer player.physics e.intent (1 / m.tickRate)
        ((m.mapGen.getObjectsNear player.physics.position.x player.physics.position.y
          OBSTACLE_CHECK_RADIUS).1) t).player ∧
      p2.inputQueue = player.inputQueue.filter (fun inp => decide (e.seq ≤ inp.seq)) := by
  simp only [GameMatch.tick, hp, List.foldl_cons, List.foldl_nil, tickPlayerStep, hc,
    if_pos, hq, List.getLast?_concat]
  refine ⟨{ player with
      physics := (updatePlayer player.physics e.intent (1 / m.tickRate)
        ((m.mapGen.getObjectsNear player.physics.position.x player.physics.position.y
          OBSTACLE_CHECK_RADIUS).1) t).player
      lastAckedSeq := e.seq
      inputQueue := (pre ++ [e]).filter (fun inp => decide (e.seq ≤ inp.seq))
      connected := true },
    ?_, rfl, rfl, rfl⟩
  split
  · rw [endMatch_players]
    rfl
  · rfl

/-- C10 witness: with `lastAckedSeq = 5` and a queued entry of sequence 3,
the tick acknowledges 3 — the reported ack decreases. -/
theorem C10_latest_appended_input_applied_witness :
    mOoo.players = [oooPlayer] ∧ oooPlayer.connected = true ∧
    oooPlayer.inputQueue = [] ++ [entryB] ∧ oooPlayer.lastAckedSeq = 5 ∧
    (∃ p2, (mOoo.tick 0).1.players = [p2] ∧
      p2.lastAckedSeq = entryB.seq ∧
      p2.physics = (updatePlayer oooPlayer.physics entryB.intent (1 / mOoo.tickRate)
        ((mOoo.mapGen.getObjectsNear oooPlayer.physics.position.x
          oooPlayer.physics.position.y OBSTACLE_CHECK_RADIUS).1) 0).player ∧
      p2.inputQueue = oooPlayer.inputQueue.filter (fun inp => decide (entryB.seq ≤ inp.seq))) ∧
    entryB.seq < oooPlayer.lastAckedSeq :=
  ⟨rfl, rfl, rfl, rfl,
    C10_latest_appended_input_applied mOoo 0 oooPlayer [] entryB rfl rfl rfl,
    by decide⟩

end Skipay
